import Mathlib

/-!
Verification of the query-normalization and feature-weighted retrieval
pipeline of the RAG repository, as a shallow embedding in Lean.

Conventions used throughout:
* Python dicts are modelled as insertion-ordered association lists
  `List (String × FVal)`; `dictSet` mirrors `d[k] = v` (replace in place,
  else append) and `dictUpdate` mirrors `d.update(r)`.
* Calls into external libraries (the LLM client, `json.loads`, regex
  matching, Tesseract/EasyOCR, pdfplumber/fitz page objects, `pathlib`
  suffix computation, the filesystem, the vector-database client) are
  modelled as oracle parameters or oracle-outcome data; everything the
  repository's own code does with those outcomes is embedded faithfully.
* A Python exception raised by an external call is modelled as an
  explicit `Except.error` / `none` outcome; a Lean function returning a
  plain value on every input therefore witnesses that the embedded code
  path lets no exception propagate.
* Machine floats of the source are modelled as `ℚ`; the claims proved
  below do not depend on bit-level float behaviour, only on comparisons
  and on which branch is taken.
-/

namespace RagSpec

/-- JSON-like value universe for filter maps and hit payloads, mirroring
the loosely typed Python values the code manipulates. -/
inductive FVal : Type where
  | str (s : String)
  | int (n : Int)
  | rat (q : ℚ)
  | bool (b : Bool)
  | none_
  | dict (entries : List (String × FVal))

/-- Python dict assignment `d[k] = v`: replace the value at the first
occurrence of `k` keeping its position, else append the binding. -/
def dictSet (d : List (String × FVal)) (k : String) (v : FVal) :
    List (String × FVal) :=
  match d with
  | [] => [(k, v)]
  | (k0, v0) :: rest =>
      if k0 = k then (k0, v) :: rest else (k0, v0) :: dictSet rest k v

/-- Python dict read `d.get(k)` / `d[k]`. -/
def dictLookup (d : List (String × FVal)) (k : String) : Option FVal :=
  match d with
  | [] => none
  | (k0, v0) :: rest => if k0 = k then some v0 else dictLookup rest k

/-- Python `d.update(r)`: assign each binding of `r` into `d`, in order. -/
def dictUpdate (d r : List (String × FVal)) : List (String × FVal) :=
  r.foldl (fun acc kv => dictSet acc kv.1 kv.2) d

/-- Embeds `query_router.py` lines 150-151 of `process_text_query`:
`final_filters = filter_conditions.copy() if filter_conditions else {}`
followed by `final_filters.update(parsed['filters'])`.  A missing or
empty (falsy) explicit map starts from `{}`. -/
def mergeFilters (filter_conditions : Option (List (String × FVal)))
    (parsed_filters : List (String × FVal)) : List (String × FVal) :=
  dictUpdate (filter_conditions.getD []) parsed_filters

theorem dictLookup_dictSet_self (d : List (String × FVal)) (k : String)
    (v : FVal) : dictLookup (dictSet d k v) k = some v := by
  induction d with
  | nil => simp [dictSet, dictLookup]
  | cons hd tl ih =>
      by_cases h : hd.1 = k
      · simp [dictSet, dictLookup, h]
      · simp [dictSet, dictLookup, h, ih]

theorem dictLookup_dictSet_other (d : List (String × FVal)) (k k0 : String)
    (v : FVal) (h : k ≠ k0) :
    dictLookup (dictSet d k0 v) k = dictLookup d k := by
  have h' : ¬(k0 = k) := fun he => h he.symm
  induction d with
  | nil => simp [dictSet, dictLookup, h']
  | cons hd tl ih =>
      by_cases h0 : hd.1 = k0
      · have hk : ¬(hd.1 = k) := by rw [h0]; exact h'
        rw [show dictSet (hd :: tl) k0 v = (hd.1, v) :: tl by
          simp [dictSet, h0]]
        simp [dictLookup, hk]
      · by_cases h1 : hd.1 = k
        · simp [dictSet, dictLookup, h0, h1, h]
        · simp [dictSet, dictLookup, h0, h1, ih]

theorem dictLookup_eq_none_of_not_mem (d : List (String × FVal)) (k : String)
    (h : k ∉ d.map Prod.fst) : dictLookup d k = none := by
  induction d with
  | nil => rfl
  | cons hd tl ih =>
      simp only [List.map_cons, List.mem_cons] at h
      push_neg at h
      have h1 : ¬(hd.1 = k) := fun he => h.1 he.symm
      simp [dictLookup, h1, ih h.2]

theorem dictLookup_dictUpdate (e r : List (String × FVal)) (k : String)
    (hr : (r.map Prod.fst).Nodup) :
    dictLookup (dictUpdate e r) k =
      (match dictLookup r k with
       | some v => some v
       | none => dictLookup e k) := by
  induction r generalizing e with
  | nil => simp [dictUpdate, dictLookup]
  | cons hd tl ih =>
      simp only [List.map_cons, List.nodup_cons] at hr
      have step : dictUpdate e (hd :: tl) = dictUpdate (dictSet e hd.1 hd.2) tl := by
        simp [dictUpdate]
      rw [step, ih _ hr.2]
      by_cases hk : hd.1 = k
      · subst hk
        rw [dictLookup_eq_none_of_not_mem tl hd.1 hr.1]
        simp [dictLookup, dictLookup_dictSet_self]
      · simp [dictLookup, hk,
          dictLookup_dictSet_other e k hd.1 hd.2 (fun he => hk he.symm)]

/-- C1: the filter map passed to retrieval for a text query is the
explicit filter map overlaid with the resolved intent's filters, every
key of the intent map overwriting a colliding explicit key; in
particular merging `{"target": 0}` with `{"target": 1, "gender": "F"}`
yields `{"target": 1, "gender": "F"}`.  (The nodup hypothesis records
that a Python dict has unique keys.) -/
theorem C1_filter_merge_overlay (e r : List (String × FVal)) (k : String)
    (hr : (r.map Prod.fst).Nodup) :
    dictLookup (mergeFilters (some e) r) k =
      (match dictLookup r k with
       | some v => some v
       | none => dictLookup e k) ∧
    mergeFilters (some [("target", FVal.int 0)])
        [("target", FVal.int 1), ("gender", FVal.str "F")] =
      [("target", FVal.int 1), ("gender", FVal.str "F")] := by
  constructor
  · simpa [mergeFilters] using dictLookup_dictUpdate e r k hr
  · rfl

/-- Witness for C1 at concrete maps: the intent value wins on the
colliding key `target`. -/
theorem C1_witness :
    dictLookup
        (mergeFilters (some [("target", FVal.int 0)])
          [("target", FVal.int 1), ("gender", FVal.str "F")]) "target" =
      some (FVal.int 1) := by
  have h := C1_filter_merge_overlay [("target", FVal.int 0)]
    [("target", FVal.int 1), ("gender", FVal.str "F")] "target" (by simp)
  rw [h.1]
  rfl

/-!
### QueryIntentResolver (`llm_query_understanding.py`)

The LLM client and `json.loads` are external: the LLM call outcome is an
`Except` value (an exception anywhere in the outer `try` is the `error`
case) and JSON parsing is an oracle `String → Option LLMParsed`
returning `none` exactly when `json.loads` raises `JSONDecodeError`.
`LLMParsed` mirrors the loosely typed parsed JSON object: each field is
`none` when the key is absent (so `.get(key, default)` is `Option.getD`).
-/

/-- The fields `parse_query` reads off the parsed JSON object; `none`
models an absent key. -/
structure LLMParsed where
  search_query : Option String
  filters : Option (List (String × FVal))
  intent : Option FVal
  detected_attributes : Option (List String)
  explanation : Option String

/-- The result dict built by `LLMQueryUnderstanding.parse_query`. -/
structure ParsedQuery where
  original_query : String
  search_query : String
  filters : List (String × FVal)
  intent : Option FVal
  detected_filters : List String
  explanation : String

/-- Embeds `LLMQueryUnderstanding._create_fallback_result`. -/
def create_fallback_result (query : String) : ParsedQuery :=
  { original_query := query
    search_query := query
    filters := []
    intent := none
    detected_filters := []
    explanation := "LLM parsing failed, using direct search" }

/-- Embeds the code-fence stripping of `parse_query` (lines 203-207). -/
def stripCodeFence (content : String) : String :=
  if content.startsWith "```json" then
    ((content.replace "```json" "").replace "```" "").trim
  else if content.startsWith "```" then
    (content.replace "```" "").trim
  else content

/-- Embeds `LLMQueryUnderstanding.parse_query`.  `llmResponse` is the
outcome of `self.llm.invoke(...)` (error = any exception while calling
the external service, including missing credentials raised by the lazy
`_initialize_llm`); `jsonParse` is the `json.loads` oracle. -/
def parse_query (llmResponse : Except String String)
    (jsonParse : String → Option LLMParsed) (query : String) : ParsedQuery :=
  match llmResponse with
  | Except.error _ => create_fallback_result query
  | Except.ok raw =>
      match jsonParse (stripCodeFence raw.trim) with
      | none => create_fallback_result query
      | some p =>
          { original_query := query
            search_query := p.search_query.getD query
            filters := p.filters.getD []
            intent := p.intent
            detected_filters := p.detected_attributes.getD []
            explanation := p.explanation.getD "" }

/-- C2: whenever the JSON parse step fails or any exception occurs while
calling the external LLM service, `parse_query` returns the fallback
intent — search text equal to the original query, empty filter map,
empty detected-attributes list.  `parse_query` is a total Lean function,
so no exception propagates out of the resolver on these paths. -/
theorem C2_parse_query_fallback (jsonParse : String → Option LLMParsed)
    (query : String) :
    (∀ e : String, parse_query (Except.error e) jsonParse query =
      create_fallback_result query) ∧
    (∀ raw : String, jsonParse (stripCodeFence raw.trim) = none →
      parse_query (Except.ok raw) jsonParse query =
        create_fallback_result query) ∧
    (create_fallback_result query).search_query = query ∧
    (create_fallback_result query).filters = [] ∧
    (create_fallback_result query).detected_filters = [] := by
  refine ⟨fun e => rfl, fun raw h => ?_, rfl, rfl, rfl⟩
  simp [parse_query, h]

/-- Witness for C2 at a concrete query, with a JSON oracle failing on
every input (as `json.loads` does on non-JSON text). -/
theorem C2_witness :
    parse_query (Except.ok "not json") (fun _ => none) "find clients" =
        create_fallback_result "find clients" ∧
      parse_query (Except.error "timeout") (fun _ => none) "find clients" =
        create_fallback_result "find clients" :=
  ⟨(C2_parse_query_fallback (fun _ => none) "find clients").2.1 "not json" rfl,
   (C2_parse_query_fallback (fun _ => none) "find clients").1 "timeout"⟩

/-!
### QueryRouter.detect_query_type (`query_router.py` lines 81-110)

`os.path.exists` and `pathlib.Path(...).suffix` are filesystem/library
oracles, passed in as functions.  A `QInput` is a Python `str`, a
`pathlib.Path` (carried as its string form), or any other object (the
`else: return 'text'` branch).
-/

/-- The three possible runtime types of the `query` argument. -/
inductive QInput : Type where
  | str (s : String)
  | path (p : String)
  | other

/-- Python `str.lower()`, character-wise (the suffixes compared against
are ASCII, where this agrees with Python). -/
def strToLower (s : String) : String := String.mk (s.data.map Char.toLower)

/-- The suffix dispatch of `detect_query_type` (lines 104-110). -/
def classifySuffix (pathSuffix : String → String) (p : String) : String :=
  if strToLower (pathSuffix p) = ".pdf" then "pdf"
  else if strToLower (pathSuffix p) ∈
      ([".png", ".jpg", ".jpeg", ".bmp", ".tiff"] : List String) then "image"
  else "text"

/-- Embeds `QueryRouter.detect_query_type`: a string is inspected as a
path only when `os.path.exists` holds; `Path` inputs are inspected
directly; any other input is a text query. -/
def detect_query_type (fsExists : String → Bool)
    (pathSuffix : String → String) : QInput → String
  | QInput.str s => if fsExists s then classifySuffix pathSuffix s else "text"
  | QInput.path p => classifySuffix pathSuffix p
  | QInput.other => "text"

theorem classifySuffix_mem (pathSuffix : String → String) (p : String) :
    classifySuffix pathSuffix p ∈ (["text", "pdf", "image"] : List String) := by
  unfold classifySuffix
  split
  · simp
  · split
    · simp
    · simp

/-- C5: `detect_query_type` is total — every input is classified as one
of text/pdf/image and classification never fails; a `.pdf` suffix gives
`pdf` and an image suffix gives `image` (for `Path` inputs, and for
string inputs exactly when they reference an existing filesystem path);
a non-existing string is always `text`, and a non-string non-path input
is always `text`. -/
theorem C5_detect_query_type_total (fsExists : String → Bool)
    (pathSuffix : String → String) :
    (∀ q : QInput, detect_query_type fsExists pathSuffix q ∈
      (["text", "pdf", "image"] : List String)) ∧
    (∀ p, pathSuffix p = ".pdf" →
      detect_query_type fsExists pathSuffix (QInput.path p) = "pdf") ∧
    (∀ p, pathSuffix p ∈
        ([".png", ".jpg", ".jpeg", ".bmp", ".tiff"] : List String) →
      detect_query_type fsExists pathSuffix (QInput.path p) = "image") ∧
    (∀ s, fsExists s = false →
      detect_query_type fsExists pathSuffix (QInput.str s) = "text") ∧
    (∀ s, fsExists s = true →
      detect_query_type fsExists pathSuffix (QInput.str s) =
        classifySuffix pathSuffix s) ∧
    detect_query_type fsExists pathSuffix QInput.other = "text" := by
  refine ⟨fun q => ?_, fun p hp => ?_, fun p hp => ?_,
    fun s hs => ?_, fun s hs => ?_, rfl⟩
  · cases q with
    | str s =>
        by_cases h : fsExists s
        · simpa [detect_query_type, h] using classifySuffix_mem pathSuffix s
        · simp [detect_query_type, h]
    | path p => simpa [detect_query_type] using classifySuffix_mem pathSuffix p
    | other => simp [detect_query_type]
  · show classifySuffix pathSuffix p = "pdf"
    unfold classifySuffix
    rw [hp]
    decide
  · simp only [List.mem_cons, List.mem_singleton, List.not_mem_nil,
      or_false] at hp
    show classifySuffix pathSuffix p = "image"
    unfold classifySuffix
    rcases hp with h | h | h | h | h <;> rw [h] <;> decide
  · simp [detect_query_type, hs]
  · simp [detect_query_type, hs]

/-- Witness for C5 at concrete oracles and inputs. -/
theorem C5_witness :
    detect_query_type (fun _ => false) (fun _ => "")
        (QInput.str "find good clients") = "text" ∧
    detect_query_type (fun _ => true) (fun _ => ".pdf")
        (QInput.path "report.pdf") = "pdf" ∧
    detect_query_type (fun _ => true) (fun _ => ".png")
        (QInput.path "scan.png") = "image" :=
  ⟨(C5_detect_query_type_total (fun _ => false) (fun _ => "")).2.2.2.1
      "find good clients" rfl,
   (C5_detect_query_type_total (fun _ => true) (fun _ => ".pdf")).2.1
      "report.pdf" rfl,
   (C5_detect_query_type_total (fun _ => true) (fun _ => ".png")).2.2.1
      "scan.png" (by simp)⟩

/-!
### OCRProcessor (`image_transformer.py`)

The Tesseract call is an oracle outcome: `none` models any exception
inside `ocr_pytesseract` (caught there, yielding `("", 0)`), `some
(confs, text)` models a successful call with the token-level confidence
list `data['conf']` and the extracted text.  The EasyOCR side is the
availability flag `EASYOCR_AVAILABLE` plus the text `ocr_easyocr`
returned (already `""` when that engine failed or found nothing).
Confidences are exact rationals; the claims depend only on comparisons.
-/

/-- The confidence average of `ocr_pytesseract` (lines 110-112): mean of
the token confidences after dropping the explicit no-confidence `-1`
entries, `0` when nothing remains. -/
def avgConfidence (confs : List Int) : ℚ :=
  let cs := confs.filter (fun c => c ≠ -1)
  if cs.isEmpty then 0 else (cs.sum : ℚ) / (cs.length : ℚ)

/-- Embeds `OCRProcessor.ocr_pytesseract`: returns `(text, confidence)`,
or `("", 0)` when the engine raised. -/
def ocr_pytesseract (outcome : Option (List Int × String)) : String × ℚ :=
  match outcome with
  | none => ("", 0)
  | some (confs, text) => (text, avgConfidence confs)

/-- Embeds `OCRProcessor.ocr_image` (lines 160-193) with its default
`confidence_threshold = 60.0`. -/
def ocr_image (tess : Option (List Int × String)) (easyAvailable : Bool)
    (easyText : String) (threshold : ℚ := 60) : String :=
  let tc := ocr_pytesseract tess
  if tc.2 ≥ threshold then tc.1
  else if easyAvailable = true ∧ tc.2 < threshold then
    (if easyText.length > tc.1.length then easyText else tc.1)
  else tc.1

/-- C3: the OCR step accepts the primary (Tesseract) text whenever the
confidence — the mean of non-`-1` token confidences — is at least 60;
below 60 with the secondary engine available it accepts whichever text
is strictly longer, ties favoring the primary; with the secondary
engine unavailable it accepts the primary text regardless of
confidence. -/
theorem C3_ocr_two_tier (tess : Option (List Int × String))
    (easyAvailable : Bool) (easyText : String) :
    (∀ confs text, tess = some (confs, text) → avgConfidence confs ≥ 60 →
      ocr_image tess easyAvailable easyText = text) ∧
    ((ocr_pytesseract tess).2 < 60 → easyAvailable = true →
      easyText.length > (ocr_pytesseract tess).1.length →
      ocr_image tess easyAvailable easyText = easyText) ∧
    ((ocr_pytesseract tess).2 < 60 → easyAvailable = true →
      easyText.length ≤ (ocr_pytesseract tess).1.length →
      ocr_image tess easyAvailable easyText = (ocr_pytesseract tess).1) ∧
    (easyAvailable = false →
      ocr_image tess easyAvailable easyText = (ocr_pytesseract tess).1) := by
  refine ⟨fun confs text ht hc => ?_, fun hlow hav hlen => ?_,
    fun hlow hav hlen => ?_, fun hav => ?_⟩
  · subst ht
    unfold ocr_image
    have hp : ocr_pytesseract (some (confs, text)) =
        (text, avgConfidence confs) := rfl
    rw [hp]
    simp [hc]
  · unfold ocr_image
    rw [if_neg (not_le.mpr hlow), if_pos ⟨hav, hlow⟩, if_pos hlen]
  · unfold ocr_image
    rw [if_neg (not_le.mpr hlow), if_pos ⟨hav, hlow⟩,
      if_neg (not_lt.mpr hlen)]
  · unfold ocr_image
    by_cases hge : (ocr_pytesseract tess).2 ≥ 60
    · rw [if_pos hge]
    · rw [if_neg hge, if_neg (by simp [hav])]

/-- Witness for C3: a concrete low-confidence page (confidences 45 and
45, with a `-1` dropped) where the secondary text is strictly longer and
is accepted, and a high-confidence page where the primary is kept. -/
theorem C3_witness :
    ocr_image (some ([45, -1, 45], "primary text of 60")) true
        "secondary text, longer, 80 chars" = "secondary text, longer, 80 chars" ∧
    ocr_image (some ([80, 80], "good primary")) true "longer secondary text" =
      "good primary" :=
  ⟨(C3_ocr_two_tier (some ([45, -1, 45], "primary text of 60")) true
      "secondary text, longer, 80 chars").2.1 (by norm_num [ocr_pytesseract, avgConfidence])
      rfl (by decide),
   (C3_ocr_two_tier (some ([80, 80], "good primary")) true
      "longer secondary text").1 [80, 80] "good primary" rfl
      (by norm_num [avgConfidence])⟩

/-!
### RetrievalGateway filter building (`qdrant_retriever.py` lines 40-64)

`QdrantRetriever.search` translates the `filter_conditions` dict into a
list of `must` conditions for the vector-database client.  `Condition`
mirrors `qdrant_client.models.FieldCondition` with either a
`MatchValue` or a `Range(gte=..., lte=...)`; `none` bounds model Python
`None` as produced by `value.get('gte')` / `value.get('lte')`.
-/

/-- A single `must` condition of the dispatched request. -/
inductive Condition : Type where
  | matchValue (key : String) (v : FVal)
  | range (key : String) (gte lte : Option FVal)

/-- Python `s.endswith(pat)`. -/
def strEndsWith (s pat : String) : Bool := List.isSuffixOf pat.data s.data

/-- Fuel-driven worker for `strRemoveAll`; the fuel starts at the length
of the list, which bounds the number of steps. -/
def removeOccAux (pat : List Char) : Nat → List Char → List Char
  | 0, l => l
  | _ + 1, [] => []
  | n + 1, c :: rest =>
      if pat.isPrefixOf (c :: rest) ∧ pat ≠ [] then
        removeOccAux pat n (List.drop (pat.length - 1) rest)
      else c :: removeOccAux pat n rest

/-- Python `s.replace(pat, '')`: delete every non-overlapping occurrence
of `pat`, scanning left to right. -/
def strRemoveAll (s pat : String) : String :=
  String.mk (removeOccAux pat.data s.data.length s.data)

/-- Embeds the per-entry translation of `search`: a key ending in
`_range` whose value is a dict becomes a range condition on the key with
every `_range` occurrence removed (the code uses
`key.replace('_range', '')`); anything else becomes an exact match. -/
def buildCondition (k : String) (v : FVal) : Condition :=
  match v with
  | FVal.dict d =>
      if strEndsWith k "_range" then
        Condition.range (strRemoveAll k "_range") (dictLookup d "gte")
          (dictLookup d "lte")
      else Condition.matchValue k (FVal.dict d)
  | _ => Condition.matchValue k v

/-- The `must_conditions` list built from the filter dict. -/
def buildMustConditions (fc : List (String × FVal)) : List Condition :=
  fc.map (fun kv => buildCondition kv.1 kv.2)

/-- The `query_filter` argument of the dispatched `query_points` call:
`None` when `filter_conditions` is falsy (absent or empty). -/
def searchFilter (fc : Option (List (String × FVal))) :
    Option (List Condition) :=
  match fc with
  | some l => if l.isEmpty then none else some (buildMustConditions l)
  | none => none

/-- Counterexample to C7: a range filter spec with both bounds null
(`{"AMT_INCOME_TOTAL_range": {}}`) is NOT dropped — the dispatched
request contains a range predicate with both bounds `None`. -/
theorem C7_counterexample :
    searchFilter (some [("AMT_INCOME_TOTAL_range", FVal.dict [])]) =
      some [Condition.range "AMT_INCOME_TOTAL" none none] := rfl

/-- C7 (amended): no range filter spec is ever dropped — every entry of
the filter map, including a range spec with both bounds null, is
translated into exactly one predicate of the dispatched request, range
entries keeping exactly the bounds present in the spec (null when
absent). -/
theorem C7_range_not_dropped (fc : List (String × FVal)) :
    (buildMustConditions fc).length = fc.length ∧
    (∀ k d, (k, FVal.dict d) ∈ fc → strEndsWith k "_range" = true →
      Condition.range (strRemoveAll k "_range") (dictLookup d "gte")
          (dictLookup d "lte") ∈ buildMustConditions fc) := by
  constructor
  · simp [buildMustConditions]
  · intro k d hmem hrange
    have : buildCondition k (FVal.dict d) =
        Condition.range (strRemoveAll k "_range") (dictLookup d "gte")
          (dictLookup d "lte") := by
      simp [buildCondition, hrange]
    rw [← this]
    exact List.mem_map.mpr ⟨(k, FVal.dict d), hmem, rfl⟩

/-- Witness for C7 (amended) at a concrete filter map containing a
both-bounds-null range spec. -/
theorem C7_witness :
    Condition.range "AMT_INCOME_TOTAL" none none ∈
      buildMustConditions [("target", FVal.int 1),
        ("AMT_INCOME_TOTAL_range", FVal.dict [])] :=
  (C7_range_not_dropped [("target", FVal.int 1),
      ("AMT_INCOME_TOTAL_range", FVal.dict [])]).2
    "AMT_INCOME_TOTAL_range" [] (by simp) (by decide)

/-!
### PDFTransformer (`pdf_transformer.py`)

External page objects are oracle outcomes:
* pdfplumber: opening the document is `Except Unit (List pageOutcome)`
  where each page outcome is `Except Unit (Option String)` — `error`
  models `extract_text()` raising (the exception aborts the enclosing
  loop and is caught by the surrounding `try`), `ok none` models a page
  with no text, `ok (some s)` a page with text `s`.
* fitz rasterization: `Except Unit (List (Except Unit PageImage))`,
  with the same abort-on-error loop semantics in `pdf_to_images`; a
  `PageImage` carries the OCR oracle outcomes for that page.
The `OCRProcessor` is always available in the repository (its relative
module import succeeds), so the `ocr_processor is None` branch is not
taken.
Entry `id` fields (`uuid.uuid4()`) and the source filename are not
modelled; `page`, `modality`, `extraction_method` and `text` are.
-/

/-- Rasterized page together with its OCR oracle outcomes. -/
structure PageImage where
  tess : Option (List Int × String)
  easyText : String

/-- One entry of the extraction result list. -/
structure ExtractedEntry where
  page : Nat
  modality : String
  extraction_method : String
  text : String

/-- A PDF document, as the oracle outcomes of its two open calls. -/
structure PdfDoc where
  plumber : Except Unit (List (Except Unit (Option String)))
  fitz : Except Unit (List (Except Unit PageImage))

/-- Python `s.strip()`: drop leading and trailing whitespace. -/
def strStrip (s : String) : String :=
  String.mk
    (((s.data.dropWhile Char.isWhitespace).reverse.dropWhile
        Char.isWhitespace).reverse)

/-- The contribution of one page to `total_text` in `detect_pdf_type`:
`if text: total_text += len(text.strip())`. -/
def pageStripLen (t : Option String) : Nat :=
  match t with
  | some s => if s.isEmpty then 0 else (strStrip s).length
  | none => 0

/-- Sequential scan of the checked pages: `none` models the loop being
aborted by a page-level exception (caught by the surrounding `try`). -/
def sumFirstPages : List (Except Unit (Option String)) → Option Nat
  | [] => some 0
  | Except.error _ :: _ => none
  | Except.ok t :: rest => (sumFirstPages rest).map (fun m => pageStripLen t + m)

/-- Embeds `PDFTransformer.detect_pdf_type` (lines 40-65): check the
first `min(3, page_count)` pages and return `'text'` iff the summed
stripped text length is strictly greater than 50; any exception yields
`'scanned'`. -/
def detect_pdf_type (doc : Except Unit (List (Except Unit (Option String)))) :
    String :=
  match doc with
  | Except.error _ => "scanned"
  | Except.ok pages =>
      match sumFirstPages (pages.take (min 3 pages.length)) with
      | none => "scanned"
      | some total => if total > 50 then "text" else "scanned"

/-- The entry list one direct-extraction page contributes:
`if text and text.strip(): results.append(...)`. -/
def directEntryOf (pageNum : Nat) (t : Option String) : List ExtractedEntry :=
  match t with
  | some s =>
      if !s.isEmpty && !(strStrip s).isEmpty then
        [{ page := pageNum, modality := "pdf",
           extraction_method := "direct", text := s }]
      else []
  | none => []

/-- The page loop of `extract_text_pdf`: pages without truthy stripped
text contribute nothing; a page-level exception aborts the loop,
keeping the entries collected so far. -/
def extractDirectFrom (pageNum : Nat) :
    List (Except Unit (Option String)) → List ExtractedEntry
  | [] => []
  | Except.error _ :: _ => []
  | Except.ok t :: rest =>
      directEntryOf pageNum t ++ extractDirectFrom (pageNum + 1) rest

/-- Embeds `PDFTransformer.extract_text_pdf` (lines 67-96). -/
def extract_text_pdf (doc : Except Unit (List (Except Unit (Option String)))) :
    List ExtractedEntry :=
  match doc with
  | Except.error _ => []
  | Except.ok pages => extractDirectFrom 1 pages

/-- The page loop of `pdf_to_images`: collects `(page_num + 1, image)`
pairs; a page-level exception aborts the loop. -/
def collectImages (pageNum : Nat) :
    List (Except Unit PageImage) → List (Nat × PageImage)
  | [] => []
  | Except.error _ :: _ => []
  | Except.ok img :: rest => (pageNum, img) :: collectImages (pageNum + 1) rest

/-- Embeds `PDFTransformer.pdf_to_images` (lines 98-129). -/
def pdf_to_images (doc : Except Unit (List (Except Unit PageImage))) :
    List (Nat × PageImage) :=
  match doc with
  | Except.error _ => []
  | Except.ok pages => collectImages 1 pages

/-- The OCR loop of `load_pdf` (lines 155-169): each page image is
OCR'd with the default threshold; pages without truthy text are
omitted, and an OCR-engine failure (modelled inside `ocr_image`) does
not abort the loop. -/
def ocrEntries (easyAvail : Bool) : List (Nat × PageImage) → List ExtractedEntry
  | [] => []
  | (pageNum, img) :: rest =>
      (if !(ocr_image img.tess easyAvail img.easyText).isEmpty &&
          !(strStrip (ocr_image img.tess easyAvail img.easyText)).isEmpty then
        [{ page := pageNum, modality := "pdf", extraction_method := "ocr",
           text := ocr_image img.tess easyAvail img.easyText }]
      else []) ++ ocrEntries easyAvail rest

/-- Embeds `PDFTransformer.load_pdf` (lines 131-173). -/
def load_pdf (doc : PdfDoc) (easyAvail : Bool) : List ExtractedEntry :=
  if detect_pdf_type doc.plumber = "text" then extract_text_pdf doc.plumber
  else ocrEntries easyAvail (pdf_to_images doc.fitz)

theorem extractDirectFrom_method (pageNum : Nat)
    (pages : List (Except Unit (Option String))) :
    ∀ e ∈ extractDirectFrom pageNum pages, e.extraction_method = "direct" := by
  induction pages generalizing pageNum with
  | nil => intro e he; cases he
  | cons hd tl ih =>
      intro e he
      cases hd with
      | error u => cases he
      | ok t =>
          simp only [extractDirectFrom, List.mem_append] at he
          rcases he with he | he
          · cases t with
            | none => cases he
            | some s =>
                simp only [directEntryOf] at he
                by_cases hc : (!s.isEmpty && !(strStrip s).isEmpty) = true
                · rw [if_pos hc] at he
                  rcases List.mem_singleton.mp he with rfl
                  rfl
                · rw [if_neg hc] at he
                  cases he
          · exact ih (pageNum + 1) e he

/-- The 50-character string of the C4 counterexample: 50 non-whitespace
characters on the only page of the document. -/
def fiftyChars : String := "aaaaaaaaaaaaaaaaaaaaaaaaaaaaaaaaaaaaaaaaaaaaaaaaaa"

/-- The number of non-whitespace characters of a string (the quantity
the claim counts). -/
def nonWhitespaceCount (s : String) : Nat :=
  (s.data.filter (fun c => !c.isWhitespace)).length

/-- Counterexample to C4: a one-page document whose direct extraction
yields exactly 50 non-whitespace characters is NOT put in direct-text
mode — the code requires strictly more than 50 characters of stripped
text, so this document is classified scanned and proceeds through the
OCR path. -/
theorem C4_counterexample :
    nonWhitespaceCount fiftyChars = 50 ∧
    detect_pdf_type (Except.ok [Except.ok (some fiftyChars)]) = "scanned" := by
  constructor
  · decide
  · rfl

/-- C4 (amended): the extractor enters direct-text mode iff the summed
`len(text.strip())` over the first `min(3, page_count)` pages — which
counts every character of the stripped text, interior whitespace
included — is strictly greater than 50; in direct-text mode every
produced page entry is tagged `direct`; and a document yielding 0
extractable characters there is classified scanned and proceeds through
the OCR path. -/
theorem C4_text_mode_threshold (pages : List (Except Unit (Option String)))
    (fitz : Except Unit (List (Except Unit PageImage))) (easyAvail : Bool) :
    (∀ total, sumFirstPages (pages.take (min 3 pages.length)) = some total →
      (detect_pdf_type (Except.ok pages) = "text" ↔ 50 < total)) ∧
    (detect_pdf_type (Except.ok pages) = "text" →
      ∀ e ∈ load_pdf ⟨Except.ok pages, fitz⟩ easyAvail,
        e.extraction_method = "direct") ∧
    (sumFirstPages (pages.take (min 3 pages.length)) = some 0 →
      load_pdf ⟨Except.ok pages, fitz⟩ easyAvail =
        ocrEntries easyAvail (pdf_to_images fitz)) := by
  refine ⟨fun total htot => ?_, fun htext e he => ?_, fun hzero => ?_⟩
  · constructor
    · intro hdet
      by_contra hle
      have : detect_pdf_type (Except.ok pages) = "scanned" := by
        simp [detect_pdf_type, htot, hle]
      rw [hdet] at this
      exact absurd this (by decide)
    · intro hlt
      simp [detect_pdf_type, htot, hlt]
  · rw [load_pdf] at he
    simp only [htext, if_pos] at he
    exact extractDirectFrom_method 1 pages e
      (by simpa [extract_text_pdf] using he)
  · have hdet : detect_pdf_type (Except.ok pages) = "scanned" := by
      simp [detect_pdf_type, hzero]
    rw [load_pdf]
    simp [hdet]

/-- Witness for C4 (amended) on a concrete two-page document with 51
characters of stripped text: direct mode, and every entry is tagged
`direct`. -/
theorem C4_witness :
    detect_pdf_type (Except.ok [Except.ok (some (fiftyChars ++ "b")),
        Except.ok none]) = "text" ∧
    (∀ e ∈ load_pdf ⟨Except.ok [Except.ok (some (fiftyChars ++ "b")),
        Except.ok none], Except.error ()⟩ false,
      e.extraction_method = "direct") := by
  have h := C4_text_mode_threshold
    [Except.ok (some (fiftyChars ++ "b")), Except.ok none]
    (Except.error ()) false
  have hdet : detect_pdf_type (Except.ok [Except.ok (some (fiftyChars ++ "b")),
      Except.ok none]) = "text" :=
    (h.1 51 (by rfl)).mpr (by decide)
  exact ⟨hdet, h.2.1 hdet⟩

/-!
### FeatureExtractor (`feature_extractor.py`)

`re.search` is external, so the result of matching the input text is an
oracle record `Matches`: each field is the captured group of the
corresponding pattern (`none` when the pattern does not match).  For
numeric captures the code converts with `int(...)` / `float(...)`:
fields holding `Nat`/`ℚ` carry that converted value, fields holding
`String` carry the captured text exactly as interpolated into the
feature phrase (for `float(...)` conversions whose rendering is
interpolated, the field holds the rendered decimal form).  `pyFloat`
and `fmt1` stand in for Python's `str(float)` and `'%.1f'` renderings;
no claim below depends on their digit-level output.  Everything after
the matching — the branch structure, the tier multipliers, the derived
ratios and their guards, the fallback — is embedded faithfully and in
source order.
-/

/-- The regex-match oracle record: one field per pattern of
`extract_key_features`, in source order. -/
structure Matches where
  age : Option Nat
  gender : Option String
  education : Option String
  family : Option String
  children : Option Nat
  household : Option Nat
  housing : Option String
  realty : Option String
  car : Option String
  carAge : Option Nat
  incomeType : Option String
  occupation : Option String
  years : Option Nat
  income : Option String
  contract : Option String
  credit : Option String
  annuity : Option String
  prevCredit : Option String
  approval : Option String
  activeCredits : Option Nat
  externalCredit : Option String
  debt : Option String
  maxOverdueAmt : Option String
  delay : Option ℚ
  completion : Option String
  overdue : Option Nat
  maxOverdue : Option Nat
  prolongations : Option Nat

/-- Stand-in for Python's rendering of a float value in an f-string. -/
def pyFloat (q : ℚ) : String := toString q

/-- Stand-in for Python's `'%.1f'`-style rendering used by the
`:.1f` format specs. -/
def fmt1 (q : ℚ) : String :=
  toString (round (q * 10) / 10 : ℤ) ++ "." ++ toString (round (q * 10) % 10 : ℤ)

/-- Accumulator loop reading a decimal digit string. -/
def digitsToNatCore : List Char → Nat → Nat
  | [], acc => acc
  | c :: rest, acc => digitsToNatCore rest (acc * 10 + (c.toNat - '0'.toNat))

/-- `int(...)` on a captured digit group (the regexes only capture
digits, so on real captures the digit branch is always taken). -/
def digitsToNat (s : String) : Nat :=
  if !s.data.isEmpty && s.data.all Char.isDigit then digitsToNatCore s.data 0
  else 0

/-- `income_value`: `int(income_match.group(1).replace(',', ''))`. -/
def incomeVal (m : Matches) : Option Nat :=
  m.income.map (fun s => digitsToNat (strRemoveAll s ","))

/-- `debt_value`: `int(debt_match.group(1).replace(',', ''))`. -/
def debtVal (m : Matches) : Option Nat :=
  m.debt.map (fun s => digitsToNat (strRemoveAll s ","))

/-- `external_credit_value`. -/
def externalVal (m : Matches) : Option Nat :=
  m.externalCredit.map (fun s => digitsToNat (strRemoveAll s ","))

/-- The phrase the payment-completion branch repeats 12 times. -/
def completionToken (c : String) : String :=
  "payment completion " ++ (c ++ "%")

def bAge (m : Matches) : List String :=
  match m.age with
  | some a => ["age " ++ (toString a ++ " years")]
  | none => []

def bGender (m : Matches) : List String :=
  match m.gender with
  | some g => ["gender " ++ g]
  | none => []

def bEducation (m : Matches) : List String :=
  match m.education with
  | some e => ["education " ++ e]
  | none => []

def bFamily (m : Matches) : List String :=
  match m.family with
  | some f => List.replicate 2 ("family status " ++ f)
  | none => []

def bChildren (m : Matches) : List String :=
  match m.children with
  | some n => List.replicate 3 (toString n ++ " children")
  | none => []

def bHousehold (m : Matches) : List String :=
  match m.household with
  | some n => List.replicate 2 ("household size " ++ toString n)
  | none => []

def bHousing (m : Matches) : List String :=
  match m.housing with
  | some h => List.replicate 2 ("housing " ++ h)
  | none => []

def bRealty (m : Matches) : List String :=
  match m.realty with
  | some s => List.replicate 3
      (if strToLower s = "yes" then "owns real estate" else "no real estate")
  | none => []

def bCar (m : Matches) : List String :=
  match m.car with
  | some s => List.replicate 3
      (if strToLower s = "yes" then "owns car" else "no car")
  | none => []

def bCarAge (m : Matches) : List String :=
  match m.carAge with
  | some n => ["car age " ++ (toString n ++ " years")]
  | none => []

def bIncomeType (m : Matches) : List String :=
  match m.incomeType with
  | some t => List.replicate 2 ("income type " ++ t)
  | none => []

def bOccupation (m : Matches) : List String :=
  match m.occupation with
  | some o => List.replicate 3 ("occupation " ++ o)
  | none => []

def bYears (m : Matches) : List String :=
  match m.years with
  | some y => List.replicate 5 ("employed " ++ (toString y ++ " years"))
  | none => []

def bIncome (m : Matches) : List String :=
  match m.income with
  | some s => List.replicate 5 ("income $" ++ strRemoveAll s ",")
  | none => []

def bContract (m : Matches) : List String :=
  match m.contract with
  | some c => List.replicate 2 ("contract " ++ c)
  | none => []

def bCredit (m : Matches) : List String :=
  match m.credit with
  | some s => List.replicate 3 ("requesting $" ++ strRemoveAll s ",")
  | none => []

def bAnnuity (m : Matches) : List String :=
  match m.annuity with
  | some s => List.replicate 3 ("monthly payment $" ++ strRemoveAll s ",")
  | none => []

def bPrevCredit (m : Matches) : List String :=
  match m.prevCredit with
  | some s => List.replicate 4 ("previous credit $" ++ strRemoveAll s ",")
  | none => []

def bApproval (m : Matches) : List String :=
  match m.approval with
  | some a => List.replicate 8 ("approval rate " ++ (a ++ "%"))
  | none => []

def bActive (m : Matches) : List String :=
  match m.activeCredits with
  | some n => List.replicate 5 (toString n ++ " active credits")
  | none => []

def bExternal (m : Matches) : List String :=
  match m.externalCredit with
  | some s => List.replicate 5 ("external credit $" ++ strRemoveAll s ",")
  | none => []

def bDebt (m : Matches) : List String :=
  match m.debt with
  | some s => List.replicate 10 ("outstanding debt $" ++ strRemoveAll s ",")
  | none => []

def bMaxOverdueAmt (m : Matches) : List String :=
  match m.maxOverdueAmt with
  | some s => List.replicate 7 ("max overdue amount $" ++ strRemoveAll s ",")
  | none => []

/-- The payment-delay phrases: early / on-time / late. -/
def delayTokens (d : ℚ) : List String :=
  if d < 0 then List.replicate 10 ("early payments " ++ (pyFloat |d| ++ " days"))
  else if d = 0 then List.replicate 10 "on-time payments"
  else List.replicate 10 ("late payments " ++ (pyFloat d ++ " days"))

def bDelay (m : Matches) : List String :=
  match m.delay with
  | some d => delayTokens d
  | none => []

def bCompletion (m : Matches) : List String :=
  match m.completion with
  | some c => List.replicate 12 (completionToken c)
  | none => []

/-- The current-overdue phrases. -/
def overdueTokens (n : Nat) : List String :=
  if n > 0 then
    List.replicate 10 ("currently overdue " ++ (toString n ++ " days"))
  else List.replicate 10 "no current overdue"

def bOverdue (m : Matches) : List String :=
  match m.overdue with
  | some n => overdueTokens n
  | none => []

/-- The historical-max-overdue phrases. -/
def maxOverdueTokens (n : Nat) : List String :=
  if n > 0 then
    List.replicate 12 ("max overdue " ++ (toString n ++ " days"))
  else List.replicate 8 "no historical overdue"

def bMaxOverdue (m : Matches) : List String :=
  match m.maxOverdue with
  | some n => maxOverdueTokens n
  | none => []

/-- The prolongation phrases. -/
def prolongTokens (n : Nat) : List String :=
  if n > 0 then List.replicate 6 (toString n ++ " prolongations")
  else List.replicate 4 "no prolongations"

def bProlong (m : Matches) : List String :=
  match m.prolongations with
  | some n => prolongTokens n
  | none => []

/-- The bucketed debt-to-income phrases (weight 15). -/
def dtiTokens (ratio : ℚ) : List String :=
  if ratio = 0 then List.replicate 15 "debt-to-income 0% no debt"
  else if ratio < 20 then
    List.replicate 15 ("debt-to-income " ++ (fmt1 ratio ++ "% low debt"))
  else if ratio < 40 then
    List.replicate 15 ("debt-to-income " ++ (fmt1 ratio ++ "% moderate debt"))
  else if ratio < 60 then
    List.replicate 15 ("debt-to-income " ++ (fmt1 ratio ++ "% high debt"))
  else List.replicate 15 ("debt-to-income " ++ (fmt1 ratio ++ "% very high debt"))

/-- The positivity guard on the recognized income and the ratio
`(debt_value / income_value) * 100`. -/
def dtiGuard (iv dv : Nat) : List String :=
  if 0 < iv then dtiTokens ((dv : ℚ) / (iv : ℚ) * 100) else []

/-- The debt-to-income branch with its guard
`if income_value and income_value > 0 and debt_value is not None`. -/
def bDTI (m : Matches) : List String :=
  match incomeVal m, debtVal m with
  | some iv, some dv => dtiGuard iv dv
  | _, _ => []

/-- The bucketed credit-utilization phrases (weight 12). -/
def utilTokens (u : ℚ) : List String :=
  if u = 0 then List.replicate 12 "credit utilization 0% fully paid"
  else if u < 30 then
    List.replicate 12 ("credit utilization " ++ (fmt1 u ++ "% low"))
  else if u < 60 then
    List.replicate 12 ("credit utilization " ++ (fmt1 u ++ "% moderate"))
  else List.replicate 12 ("credit utilization " ++ (fmt1 u ++ "% high"))

/-- The positivity guard on the recognized total external credit and
the ratio `(debt_value / external_credit_value) * 100`. -/
def utilGuard (ev dv : Nat) : List String :=
  if 0 < ev then utilTokens ((dv : ℚ) / (ev : ℚ) * 100) else []

/-- The credit-utilization branch with its guard
`if external_credit_value and external_credit_value > 0 and debt_value
is not None`. -/
def bUtil (m : Matches) : List String :=
  match externalVal m, debtVal m with
  | some ev, some dv => utilGuard ev dv
  | _, _ => []

/-- The `features` list of `extract_key_features`, branch outputs in
source order. -/
def featureTokens (m : Matches) : List String :=
  bAge m ++ bGender m ++ bEducation m ++ bFamily m ++ bChildren m ++
  bHousehold m ++ bHousing m ++ bRealty m ++ bCar m ++ bCarAge m ++
  bIncomeType m ++ bOccupation m ++ bYears m ++ bIncome m ++ bContract m ++
  bCredit m ++ bAnnuity m ++ bPrevCredit m ++ bApproval m ++ bActive m ++
  bExternal m ++ bDebt m ++ bMaxOverdueAmt m ++ bDelay m ++ bCompletion m ++
  bOverdue m ++ bMaxOverdue m ++ bProlong m ++ bDTI m ++ bUtil m

/-- Embeds `FeatureExtractor.extract_key_features`: space-join the
feature list, or fall back to the first 500 characters of the raw text
when nothing was recognized. -/
def extract_key_features (text : String) (m : Matches) : String :=
  if (featureTokens m).isEmpty then String.mk (text.data.take 500)
  else String.intercalate " " (featureTokens m)

/-!
String-disequality helpers: two strings differ when they differ at some
character position or at their last character; the branch phrases all
carry a constant prefix or a constant suffix that separates them from
the payment-completion token, whatever the captured groups are.
-/

theorem strDataAppend (a b : String) : (a ++ b).data = a.data ++ b.data := rfl

theorem strNe_of_get (i : Nat) (s t : String)
    (h : s.data[i]? ≠ t.data[i]?) : s ≠ t := fun he => h (by rw [he])

theorem strNe_of_last (s t : String)
    (h : s.data.getLast? ≠ t.data.getLast?) : s ≠ t := fun he => h (by rw [he])

theorem get_append_left (pre x : String) (i : Nat) (h : i < pre.data.length) :
    (pre ++ x).data[i]? = pre.data[i]? := by
  rw [strDataAppend]
  exact List.getElem?_append_left h

theorem lastGet_append (a b : String) (hb : b.data ≠ []) :
    (a ++ b).data.getLast? = b.data.getLast? := by
  rw [strDataAppend]
  exact List.getLast?_append_of_ne_nil a.data hb

theorem append_data_ne_nil (a b : String) (hb : b.data ≠ []) :
    (a ++ b).data ≠ [] := by
  rw [strDataAppend]
  intro h
  exact hb (List.append_eq_nil.mp h).2

theorem completionToken_get0 (c : String) :
    (completionToken c).data[0]? = some 'p' := by
  unfold completionToken
  rw [get_append_left _ _ 0 (by decide)]
  decide

theorem completionToken_get1 (c : String) :
    (completionToken c).data[1]? = some 'a' := by
  unfold completionToken
  rw [get_append_left _ _ 1 (by decide)]
  decide

theorem completionToken_last (c : String) :
    (completionToken c).data.getLast? = some '%' := by
  unfold completionToken
  rw [lastGet_append _ _ (append_data_ne_nil c "%" (by decide)),
    lastGet_append _ _ (by decide)]
  decide

theorem ne_completion_of_head (pre x c : String)
    (hlen : 0 < pre.data.length) (hh : pre.data[0]? ≠ some 'p') :
    completionToken c ≠ pre ++ x := by
  intro he
  apply hh
  rw [← get_append_left pre x 0 hlen, ← he, completionToken_get0]

theorem ne_completion_of_get1 (pre x c : String)
    (hlen : 1 < pre.data.length) (hh : pre.data[1]? ≠ some 'a') :
    completionToken c ≠ pre ++ x := by
  intro he
  apply hh
  rw [← get_append_left pre x 1 hlen, ← he, completionToken_get1]

theorem ne_completion_of_last (x suf c : String) (hsuf : suf.data ≠ [])
    (hl : suf.data.getLast? ≠ some '%') : completionToken c ≠ x ++ suf := by
  intro he
  apply hl
  rw [← lastGet_append x suf hsuf, ← he, completionToken_last]

theorem const_ne_completion (s c : String) (hh : s.data[0]? ≠ some 'p') :
    completionToken c ≠ s := by
  intro he
  apply hh
  rw [← he, completionToken_get0]

theorem count_replicate_zero (k : Nat) (s tok : String) (h : tok ≠ s) :
    (List.replicate k s).count tok = 0 :=
  List.count_eq_zero.mpr (fun hmem => h (List.eq_of_mem_replicate hmem))

theorem count_singleton_zero (s tok : String) (h : tok ≠ s) :
    ([s] : List String).count tok = 0 :=
  List.count_eq_zero.mpr (by simp [h])

theorem count_bAge (m : Matches) (c : String) :
    (bAge m).count (completionToken c) = 0 := by
  unfold bAge
  cases m.age with
  | none => rfl
  | some a =>
      exact count_singleton_zero _ _
        (ne_completion_of_head "age " _ c (by decide) (by decide))

theorem count_bGender (m : Matches) (c : String) :
    (bGender m).count (completionToken c) = 0 := by
  unfold bGender
  cases m.gender with
  | none => rfl
  | some g =>
      exact count_singleton_zero _ _
        (ne_completion_of_head "gender " _ c (by decide) (by decide))

theorem count_bEducation (m : Matches) (c : String) :
    (bEducation m).count (completionToken c) = 0 := by
  unfold bEducation
  cases m.education with
  | none => rfl
  | some e =>
      exact count_singleton_zero _ _
        (ne_completion_of_head "education " _ c (by decide) (by decide))

theorem count_bFamily (m : Matches) (c : String) :
    (bFamily m).count (completionToken c) = 0 := by
  unfold bFamily
  cases m.family with
  | none => rfl
  | some f =>
      exact count_replicate_zero _ _ _
        (ne_completion_of_head "family status " _ c (by decide) (by decide))

theorem count_bChildren (m : Matches) (c : String) :
    (bChildren m).count (completionToken c) = 0 := by
  unfold bChildren
  cases m.children with
  | none => rfl
  | some n =>
      exact count_replicate_zero _ _ _
        (ne_completion_of_last _ " children" c (by decide) (by decide))

theorem count_bHousehold (m : Matches) (c : String) :
    (bHousehold m).count (completionToken c) = 0 := by
  unfold bHousehold
  cases m.household with
  | none => rfl
  | some n =>
      exact count_replicate_zero _ _ _
        (ne_completion_of_head "household size " _ c (by decide) (by decide))

theorem count_bHousing (m : Matches) (c : String) :
    (bHousing m).count (completionToken c) = 0 := by
  unfold bHousing
  cases m.housing with
  | none => rfl
  | some h =>
      exact count_replicate_zero _ _ _
        (ne_completion_of_head "housing " _ c (by decide) (by decide))

theorem count_bRealty (m : Matches) (c : String) :
    (bRealty m).count (completionToken c) = 0 := by
  unfold bRealty
  cases m.realty with
  | none => rfl
  | some s =>
      apply count_replicate_zero
      split
      · exact const_ne_completion _ c (by decide)
      · exact const_ne_completion _ c (by decide)

theorem count_bCar (m : Matches) (c : String) :
    (bCar m).count (completionToken c) = 0 := by
  unfold bCar
  cases m.car with
  | none => rfl
  | some s =>
      apply count_replicate_zero
      split
      · exact const_ne_completion _ c (by decide)
      · exact const_ne_completion _ c (by decide)

theorem count_bCarAge (m : Matches) (c : String) :
    (bCarAge m).count (completionToken c) = 0 := by
  unfold bCarAge
  cases m.carAge with
  | none => rfl
  | some n =>
      exact count_singleton_zero _ _
        (ne_completion_of_head "car age " _ c (by decide) (by decide))

theorem count_bIncomeType (m : Matches) (c : String) :
    (bIncomeType m).count (completionToken c) = 0 := by
  unfold bIncomeType
  cases m.incomeType with
  | none => rfl
  | some t =>
      exact count_replicate_zero _ _ _
        (ne_completion_of_head "income type " _ c (by decide) (by decide))

theorem count_bOccupation (m : Matches) (c : String) :
    (bOccupation m).count (completionToken c) = 0 := by
  unfold bOccupation
  cases m.occupation with
  | none => rfl
  | some o =>
      exact count_replicate_zero _ _ _
        (ne_completion_of_head "occupation " _ c (by decide) (by decide))

theorem count_bYears (m : Matches) (c : String) :
    (bYears m).count (completionToken c) = 0 := by
  unfold bYears
  cases m.years with
  | none => rfl
  | some y =>
      exact count_replicate_zero _ _ _
        (ne_completion_of_head "employed " _ c (by decide) (by decide))

theorem count_bIncome (m : Matches) (c : String) :
    (bIncome m).count (completionToken c) = 0 := by
  unfold bIncome
  cases m.income with
  | none => rfl
  | some s =>
      exact count_replicate_zero _ _ _
        (ne_completion_of_head "income $" _ c (by decide) (by decide))

theorem count_bContract (m : Matches) (c : String) :
    (bContract m).count (completionToken c) = 0 := by
  unfold bContract
  cases m.contract with
  | none => rfl
  | some s =>
      exact count_replicate_zero _ _ _
        (ne_completion_of_head "contract " _ c (by decide) (by decide))

theorem count_bCredit (m : Matches) (c : String) :
    (bCredit m).count (completionToken c) = 0 := by
  unfold bCredit
  cases m.credit with
  | none => rfl
  | some s =>
      exact count_replicate_zero _ _ _
        (ne_completion_of_head "requesting $" _ c (by decide) (by decide))

theorem count_bAnnuity (m : Matches) (c : String) :
    (bAnnuity m).count (completionToken c) = 0 := by
  unfold bAnnuity
  cases m.annuity with
  | none => rfl
  | some s =>
      exact count_replicate_zero _ _ _
        (ne_completion_of_head "monthly payment $" _ c (by decide) (by decide))

theorem count_bPrevCredit (m : Matches) (c : String) :
    (bPrevCredit m).count (completionToken c) = 0 := by
  unfold bPrevCredit
  cases m.prevCredit with
  | none => rfl
  | some s =>
      exact count_replicate_zero _ _ _
        (ne_completion_of_get1 "previous credit $" _ c (by decide) (by decide))

theorem count_bApproval (m : Matches) (c : String) :
    (bApproval m).count (completionToken c) = 0 := by
  unfold bApproval
  cases m.approval with
  | none => rfl
  | some a =>
      exact count_replicate_zero _ _ _
        (ne_completion_of_head "approval rate " _ c (by decide) (by decide))

theorem count_bActive (m : Matches) (c : String) :
    (bActive m).count (completionToken c) = 0 := by
  unfold bActive
  cases m.activeCredits with
  | none => rfl
  | some n =>
      exact count_replicate_zero _ _ _
        (ne_completion_of_last _ " active credits" c (by decide) (by decide))

theorem count_bExternal (m : Matches) (c : String) :
    (bExternal m).count (completionToken c) = 0 := by
  unfold bExternal
  cases m.externalCredit with
  | none => rfl
  | some s =>
      exact count_replicate_zero _ _ _
        (ne_completion_of_head "external credit $" _ c (by decide) (by decide))

theorem count_bDebt (m : Matches) (c : String) :
    (bDebt m).count (completionToken c) = 0 := by
  unfold bDebt
  cases m.debt with
  | none => rfl
  | some s =>
      exact count_replicate_zero _ _ _
        (ne_completion_of_head "outstanding debt $" _ c (by decide) (by decide))

theorem count_bMaxOverdueAmt (m : Matches) (c : String) :
    (bMaxOverdueAmt m).count (completionToken c) = 0 := by
  unfold bMaxOverdueAmt
  cases m.maxOverdueAmt with
  | none => rfl
  | some s =>
      exact count_replicate_zero _ _ _
        (ne_completion_of_head "max overdue amount $" _ c (by decide) (by decide))

theorem count_delayTokens (d : ℚ) (c : String) :
    (delayTokens d).count (completionToken c) = 0 := by
  unfold delayTokens
  split
  · exact count_replicate_zero _ _ _
      (ne_completion_of_head "early payments " _ c (by decide) (by decide))
  · split
    · exact count_replicate_zero _ _ _ (const_ne_completion _ c (by decide))
    · exact count_replicate_zero _ _ _
        (ne_completion_of_head "late payments " _ c (by decide) (by decide))

theorem count_bDelay (m : Matches) (c : String) :
    (bDelay m).count (completionToken c) = 0 := by
  unfold bDelay
  cases m.delay with
  | none => rfl
  | some d => exact count_delayTokens d c

theorem count_overdueTokens (n : Nat) (c : String) :
    (overdueTokens n).count (completionToken c) = 0 := by
  unfold overdueTokens
  split
  · exact count_replicate_zero _ _ _
      (ne_completion_of_head "currently overdue " _ c (by decide) (by decide))
  · exact count_replicate_zero _ _ _ (const_ne_completion _ c (by decide))

theorem count_bOverdue (m : Matches) (c : String) :
    (bOverdue m).count (completionToken c) = 0 := by
  unfold bOverdue
  cases m.overdue with
  | none => rfl
  | some n => exact count_overdueTokens n c

theorem count_maxOverdueTokens (n : Nat) (c : String) :
    (maxOverdueTokens n).count (completionToken c) = 0 := by
  unfold maxOverdueTokens
  split
  · exact count_replicate_zero _ _ _
      (ne_completion_of_head "max overdue " _ c (by decide) (by decide))
  · exact count_replicate_zero _ _ _ (const_ne_completion _ c (by decide))

theorem count_bMaxOverdue (m : Matches) (c : String) :
    (bMaxOverdue m).count (completionToken c) = 0 := by
  unfold bMaxOverdue
  cases m.maxOverdue with
  | none => rfl
  | some n => exact count_maxOverdueTokens n c

theorem count_prolongTokens (n : Nat) (c : String) :
    (prolongTokens n).count (completionToken c) = 0 := by
  unfold prolongTokens
  split
  · exact count_replicate_zero _ _ _
      (ne_completion_of_last _ " prolongations" c (by decide) (by decide))
  · exact count_replicate_zero _ _ _ (const_ne_completion _ c (by decide))

theorem count_bProlong (m : Matches) (c : String) :
    (bProlong m).count (completionToken c) = 0 := by
  unfold bProlong
  cases m.prolongations with
  | none => rfl
  | some n => exact count_prolongTokens n c

theorem count_dtiTokens (r : ℚ) (c : String) :
    (dtiTokens r).count (completionToken c) = 0 := by
  unfold dtiTokens
  split
  · exact count_replicate_zero _ _ _ (const_ne_completion _ c (by decide))
  · split
    · exact count_replicate_zero _ _ _
        (ne_completion_of_head "debt-to-income " _ c (by decide) (by decide))
    · split
      · exact count_replicate_zero _ _ _
          (ne_completion_of_head "debt-to-income " _ c (by decide) (by decide))
      · split
        · exact count_replicate_zero _ _ _
            (ne_completion_of_head "debt-to-income " _ c (by decide) (by decide))
        · exact count_replicate_zero _ _ _
            (ne_completion_of_head "debt-to-income " _ c (by decide) (by decide))

theorem count_dtiGuard (iv dv : Nat) (c : String) :
    (dtiGuard iv dv).count (completionToken c) = 0 := by
  unfold dtiGuard
  split
  · exact count_dtiTokens _ c
  · rfl

theorem count_bDTI (m : Matches) (c : String) :
    (bDTI m).count (completionToken c) = 0 := by
  unfold bDTI
  cases incomeVal m with
  | none => rfl
  | some iv =>
      cases debtVal m with
      | none => rfl
      | some dv => exact count_dtiGuard iv dv c

theorem count_utilTokens (u : ℚ) (c : String) :
    (utilTokens u).count (completionToken c) = 0 := by
  unfold utilTokens
  split
  · exact count_replicate_zero _ _ _ (const_ne_completion _ c (by decide))
  · split
    · exact count_replicate_zero _ _ _
        (ne_completion_of_head "credit utilization " _ c (by decide) (by decide))
    · split
      · exact count_replicate_zero _ _ _
          (ne_completion_of_head "credit utilization " _ c (by decide) (by decide))
      · exact count_replicate_zero _ _ _
          (ne_completion_of_head "credit utilization " _ c (by decide) (by decide))

theorem count_utilGuard (ev dv : Nat) (c : String) :
    (utilGuard ev dv).count (completionToken c) = 0 := by
  unfold utilGuard
  split
  · exact count_utilTokens _ c
  · rfl

theorem count_bUtil (m : Matches) (c : String) :
    (bUtil m).count (completionToken c) = 0 := by
  unfold bUtil
  cases externalVal m with
  | none => rfl
  | some ev =>
      cases debtVal m with
      | none => rfl
      | some dv => exact count_utilGuard ev dv c

/-- C8: whenever the payment-completion-ratio pattern matched (with
rendered value `c`), the feature list contains the phrase
`payment completion c%` exactly 12 times, whatever else the input
contains, and the output is the space-join of that feature list (the
fallback branch is not taken). -/
theorem C8_completion_twelve (text : String) (m : Matches) (c : String)
    (hc : m.completion = some c) :
    (featureTokens m).count (completionToken c) = 12 ∧
    extract_key_features text m =
      String.intercalate " " (featureTokens m) := by
  have h12 : (bCompletion m).count (completionToken c) = 12 := by
    unfold bCompletion
    rw [hc]
    exact List.count_replicate_self _ _
  have hcount : (featureTokens m).count (completionToken c) = 12 := by
    unfold featureTokens
    simp only [List.count_append, count_bAge, count_bGender, count_bEducation,
      count_bFamily, count_bChildren, count_bHousehold, count_bHousing,
      count_bRealty, count_bCar, count_bCarAge, count_bIncomeType,
      count_bOccupation, count_bYears, count_bIncome, count_bContract,
      count_bCredit, count_bAnnuity, count_bPrevCredit, count_bApproval,
      count_bActive, count_bExternal, count_bDebt, count_bMaxOverdueAmt,
      count_bDelay, count_bOverdue, count_bMaxOverdue, count_bProlong,
      count_bDTI, count_bUtil, h12]
  refine ⟨hcount, ?_⟩
  have hne : (featureTokens m).isEmpty = false := by
    rcases hfe : featureTokens m with _ | ⟨hd, tl⟩
    · rw [hfe] at hcount
      simp at hcount
    · rfl
  rw [extract_key_features, hne]
  simp

/-- The all-patterns-miss match record (an input in which no attribute
is recognized). -/
def noMatches : Matches where
  age := none
  gender := none
  education := none
  family := none
  children := none
  household := none
  housing := none
  realty := none
  car := none
  carAge := none
  incomeType := none
  occupation := none
  years := none
  income := none
  contract := none
  credit := none
  annuity := none
  prevCredit := none
  approval := none
  activeCredits := none
  externalCredit := none
  debt := none
  maxOverdueAmt := none
  delay := none
  completion := none
  overdue := none
  maxOverdue := none
  prolongations := none

/-- The match record of the C8 witness input: age, gender, income and
the payment-completion ratio recognized. -/
def matchesW8 : Matches :=
  { noMatches with
      age := some 35
      gender := some "F"
      income := some "60,000"
      completion := some "100.0" }

/-- Witness for C8 at a concrete match record: completion captured as
`100.0` and some other attributes present. -/
theorem C8_witness :
    (featureTokens matchesW8).count (completionToken "100.0") = 12 :=
  (C8_completion_twelve "Payment Completion Ratio: 100.0%" matchesW8
    "100.0" rfl).1

theorem bDTI_eq (m : Matches) :
    bDTI m = match incomeVal m, debtVal m with
      | some iv, some dv => dtiGuard iv dv
      | _, _ => [] := rfl

theorem bUtil_eq (m : Matches) :
    bUtil m = match externalVal m, debtVal m with
      | some ev, some dv => utilGuard ev dv
      | _, _ => [] := rfl

/-- C10: the derived-feature computations never divide by zero — the
debt-to-income tokens are emitted only when a debt value was recognized
and a strictly positive income value was recognized, the
credit-utilization tokens only when a debt value was recognized and a
strictly positive total-external-credit value was recognized; a
recognized income of 0 (resp. external credit of 0) contributes no
derived-ratio token, and the computation is a total function (no
error).  The "only when" is stated contrapositively: whenever the guard
fails — income/external-credit missing or zero (the only non-positive
`Nat`), or debt missing — the branch output is empty. -/
theorem C10_derived_ratio_guards (m : Matches) :
    (incomeVal m = none → bDTI m = []) ∧
    (incomeVal m = some 0 → bDTI m = []) ∧
    (debtVal m = none → bDTI m = []) ∧
    (externalVal m = none → bUtil m = []) ∧
    (externalVal m = some 0 → bUtil m = []) ∧
    (debtVal m = none → bUtil m = []) := by
  refine ⟨fun h => ?_, fun h => ?_, fun h => ?_, fun h => ?_, fun h => ?_,
    fun h => ?_⟩
  · rw [bDTI_eq, h]
  · rw [bDTI_eq, h]
    rcases hD : debtVal m with _ | dv
    · simp
    · simp [dtiGuard]
  · rw [bDTI_eq, h]
    rcases hI : incomeVal m with _ | iv <;> simp
  · rw [bUtil_eq, h]
  · rw [bUtil_eq, h]
    rcases hD : debtVal m with _ | dv
    · simp
    · simp [utilGuard]
  · rw [bUtil_eq, h]
    rcases hE : externalVal m with _ | ev <;> simp

/-- The match record of the C10 witness input: debt recognized, income
recognized as 0, external credit recognized as 0. -/
def matchesW10 : Matches :=
  { noMatches with
      income := some "0"
      debt := some "50"
      externalCredit := some "0" }

/-- Witness for C10: an input whose recognized income is 0 and whose
recognized external credit is 0 (with a debt value present) gets no
debt-to-income token and no credit-utilization token. -/
theorem C10_witness :
    bDTI matchesW10 = [] ∧ bUtil matchesW10 = [] :=
  ⟨(C10_derived_ratio_guards matchesW10).2.1 (by decide),
   (C10_derived_ratio_guards matchesW10).2.2.2.2.1 (by decide)⟩

/-!
### QueryRouter document processing (`query_router.py` lines 162-259)

Retrieval hits are the dicts built by `QdrantRetriever.search`; the
router receives them from the retrieval gateway, so they enter the
embedding as arbitrary dicts returned by the `searchFn` oracle.  The
regex-match step of the feature extractor is the `matchOracle`
parameter.  `process_pdf_query` and `process_image_query` return the
result list together with a flag recording whether the retrieval call
was dispatched.
-/

/-- `result.get('payload', {}).get('source_type', 'text')`; in the
retriever's output `payload` is always a dict (a non-dict value would
be a `TypeError` in Python and cannot occur). -/
def getSourceType (h : List (String × FVal)) : FVal :=
  match dictLookup h "payload" with
  | some (FVal.dict p) => (dictLookup p "source_type").getD (FVal.str "text")
  | _ => FVal.str "text"

/-- The metadata block of `process_pdf_query` (lines 202-207): four
dict assignments on the hit. -/
def annotatePdfHit (fname : String) (pagesExtracted : Nat)
    (h : List (String × FVal)) : List (String × FVal) :=
  let h1 := dictSet h "query_type" (FVal.str "pdf")
  let h2 := dictSet h1 "query_file" (FVal.str fname)
  let h3 := dictSet h2 "query_pages_extracted" (FVal.int pagesExtracted)
  dictSet h3 "source_type" (getSourceType h3)

/-- The metadata block of `process_image_query` (lines 252-256). -/
def annotateImageHit (fname : String) (h : List (String × FVal)) :
    List (String × FVal) :=
  let h1 := dictSet h "query_type" (FVal.str "image")
  let h2 := dictSet h1 "query_file" (FVal.str fname)
  dictSet h2 "source_type" (getSourceType h2)

/-- `" ".join(page['text'] for page in extracted_data)`. -/
def combinedText (entries : List ExtractedEntry) : String :=
  String.intercalate " " (entries.map (fun e => e.text))

/-- Embeds `QueryRouter.process_pdf_query`: transform the PDF, return
`([], no call)` when nothing was extracted, else feature-extract the
combined text, dispatch one retrieval call and annotate the hits. -/
def process_pdf_query (doc : PdfDoc) (easyAvail : Bool) (fname : String)
    (matchOracle : String → Matches)
    (searchFn : String → List (List (String × FVal))) :
    List (List (String × FVal)) × Bool :=
  let extracted := load_pdf doc easyAvail
  if extracted.isEmpty then ([], false)
  else
    let combined := combinedText extracted
    let featText := extract_key_features combined (matchOracle combined)
    (List.map (annotatePdfHit fname extracted.length) (searchFn featText),
      true)

/-- Embeds `ImageTransformer.load_image`: OCR the opened image, keep a
single page-1 entry when the text is truthy; any exception (the
`Except.error` open outcome) yields `[]`. -/
def load_image (img : Except Unit PageImage) (easyAvail : Bool) :
    List ExtractedEntry :=
  match img with
  | Except.error _ => []
  | Except.ok pi =>
      if !(ocr_image pi.tess easyAvail pi.easyText).isEmpty &&
          !(strStrip (ocr_image pi.tess easyAvail pi.easyText)).isEmpty then
        [{ page := 1, modality := "image", extraction_method := "ocr",
           text := ocr_image pi.tess easyAvail pi.easyText }]
      else []

/-- Embeds `QueryRouter.process_image_query`. -/
def process_image_query (img : Except Unit PageImage) (easyAvail : Bool)
    (fname : String) (matchOracle : String → Matches)
    (searchFn : String → List (List (String × FVal))) :
    List (List (String × FVal)) × Bool :=
  match load_image img easyAvail with
  | [] => ([], false)
  | e :: _ =>
      let featText := extract_key_features e.text (matchOracle e.text)
      (List.map (annotateImageHit fname) (searchFn featText), true)

/-- C9: for document queries the router annotates each returned hit
with query-kind, source-filename and (for PDFs) pages-extracted
metadata, leaving the hit's core fields — client id, similarity score,
target, text, payload — unchanged from what the retrieval gateway
returned. -/
theorem C9_annotation_frame (h : List (String × FVal)) (k fname : String)
    (n : Nat)
    (hk : k ∈ (["client_id", "score", "target", "text", "payload"] :
      List String)) :
    (dictLookup (annotatePdfHit fname n h) k = dictLookup h k ∧
      dictLookup (annotateImageHit fname h) k = dictLookup h k) ∧
    dictLookup (annotatePdfHit fname n h) "query_type" =
      some (FVal.str "pdf") ∧
    dictLookup (annotatePdfHit fname n h) "query_file" =
      some (FVal.str fname) ∧
    dictLookup (annotatePdfHit fname n h) "query_pages_extracted" =
      some (FVal.int n) ∧
    dictLookup (annotateImageHit fname h) "query_type" =
      some (FVal.str "image") ∧
    dictLookup (annotateImageHit fname h) "query_file" =
      some (FVal.str fname) := by
  refine ⟨?_, ?_, ?_, ?_, ?_, ?_⟩
  · simp only [annotatePdfHit, annotateImageHit]
    fin_cases hk <;>
      refine ⟨?_, ?_⟩ <;>
      · repeat rw [dictLookup_dictSet_other _ _ _ _ (by decide)]
  · simp only [annotatePdfHit]
    rw [dictLookup_dictSet_other _ _ _ _ (by decide),
      dictLookup_dictSet_other _ _ _ _ (by decide),
      dictLookup_dictSet_other _ _ _ _ (by decide),
      dictLookup_dictSet_self]
  · simp only [annotatePdfHit]
    rw [dictLookup_dictSet_other _ _ _ _ (by decide),
      dictLookup_dictSet_other _ _ _ _ (by decide),
      dictLookup_dictSet_self]
  · simp only [annotatePdfHit]
    rw [dictLookup_dictSet_other _ _ _ _ (by decide),
      dictLookup_dictSet_self]
  · simp only [annotateImageHit]
    rw [dictLookup_dictSet_other _ _ _ _ (by decide),
      dictLookup_dictSet_other _ _ _ _ (by decide),
      dictLookup_dictSet_self]
  · simp only [annotateImageHit]
    rw [dictLookup_dictSet_other _ _ _ _ (by decide),
      dictLookup_dictSet_self]

/-- A concrete retrieval hit as formatted by the gateway. -/
def hitW9 : List (String × FVal) :=
  [("client_id", FVal.int 100021), ("score", FVal.rat (9 / 10)),
   ("target", FVal.int 0), ("text", FVal.str "profile text"),
   ("payload", FVal.dict [("client_id", FVal.int 100021)]),
   ("metadata", FVal.dict [("client_id", FVal.int 100021)])]

/-- Witness for C9 at a concrete hit: the score is preserved by the PDF
annotation and the query-kind field is set. -/
theorem C9_witness :
    dictLookup (annotatePdfHit "report.pdf" 2 hitW9) "score" =
      dictLookup hitW9 "score" ∧
    dictLookup (annotatePdfHit "report.pdf" 2 hitW9) "query_type" =
      some (FVal.str "pdf") :=
  ⟨((C9_annotation_frame hitW9 "score" "report.pdf" 2 (by simp)).1).1,
   (C9_annotation_frame hitW9 "score" "report.pdf" 2 (by simp)).2.1⟩

theorem directEntryOf_page (pageNum : Nat) (t : Option String) :
    ∀ e ∈ directEntryOf pageNum t, e.page = pageNum := by
  intro e he
  cases t with
  | none => cases he
  | some s =>
      simp only [directEntryOf] at he
      by_cases hc : (!s.isEmpty && !(strStrip s).isEmpty) = true
      · rw [if_pos hc] at he
        rcases List.mem_singleton.mp he with rfl
        rfl
      · rw [if_neg hc] at he
        cases he

/-- The pdfplumber page outcomes of the C6 counterexample document:
three extractable pages, a page whose extraction raises, then a page
with extractable text. -/
def cpagesC6 : List (Except Unit (Option String)) :=
  [Except.ok (some fiftyChars), Except.ok (some "page two text"),
   Except.ok (some "page three text"), Except.error (),
   Except.ok (some "page five text")]

/-- Counterexample to C6's per-page clause: in this document page 5's
extraction succeeds with truthy text, yet the extracted sequence stops
at page 3 — the page-4 error omits not only page 4 but every later
page, because the exception aborts the extraction loop. -/
theorem C6_counterexample :
    cpagesC6[4]? = some (Except.ok (some "page five text")) ∧
    (extract_text_pdf (Except.ok cpagesC6)).map (fun e => e.page) =
      [1, 2, 3] := by
  constructor
  · rfl
  · rfl

/-- C6 (amended): a document that cannot be opened at all yields an
empty extraction, and any empty extraction makes `process_pdf_query`
return an empty result list without dispatching a retrieval call (and,
being a total function, without raising); a page-level extraction error
omits that page and every later page of the direct-extraction loop;
an OCR-engine failure on one page (empty OCR text) omits exactly that
page of the OCR loop. -/
theorem C6_failure_policy (doc : PdfDoc) (easyAvail : Bool) (fname : String)
    (matchOracle : String → Matches)
    (searchFn : String → List (List (String × FVal))) :
    (load_pdf doc easyAvail = [] →
      process_pdf_query doc easyAvail fname matchOracle searchFn =
        ([], false)) ∧
    (doc.plumber = Except.error () → doc.fitz = Except.error () →
      load_pdf doc easyAvail = []) ∧
    (∀ ps1 ps2 pageNum,
      ∀ e ∈ extractDirectFrom pageNum (ps1 ++ Except.error () :: ps2),
        e.page < pageNum + ps1.length) ∧
    (∀ imgs1 imgs2 n img, ocr_image img.tess easyAvail img.easyText = "" →
      ocrEntries easyAvail (imgs1 ++ (n, img) :: imgs2) =
        ocrEntries easyAvail imgs1 ++ ocrEntries easyAvail imgs2) := by
  refine ⟨fun hemp => ?_, fun hp hf => ?_, ?_, ?_⟩
  · rw [process_pdf_query]
    simp [hemp]
  · rw [load_pdf, hp, hf]
    simp [detect_pdf_type, pdf_to_images, ocrEntries]
  · intro ps1
    induction ps1 with
    | nil =>
        intro ps2 pageNum e he
        cases he
    | cons hd tl ih =>
        intro ps2 pageNum e he
        cases hd with
        | error u => cases he
        | ok t =>
            simp only [List.cons_append, extractDirectFrom,
              List.mem_append] at he
            rcases he with he | he
            · rw [directEntryOf_page pageNum t e he]
              simp
            · have := ih ps2 (pageNum + 1) e he
              simp only [List.length_cons]
              omega
  · intro imgs1
    induction imgs1 with
    | nil =>
        intro imgs2 n img hocr
        simp only [List.nil_append, ocrEntries, hocr]
        rfl
    | cons hd tl ih =>
        intro imgs2 n img hocr
        rcases hd with ⟨pn, pimg⟩
        simp only [List.cons_append, ocrEntries, List.append_eq]
        rw [ih imgs2 n img hocr, List.append_assoc]

/-- Witness for C6 (amended): an unopenable document (both open calls
raise) yields `([], no retrieval call)` even when the search oracle
would return hits. -/
theorem C6_witness :
    process_pdf_query ⟨Except.error (), Except.error ()⟩ false "corrupt.pdf"
        (fun _ => noMatches) (fun _ => [hitW9]) = ([], false) :=
  (C6_failure_policy ⟨Except.error (), Except.error ()⟩ false "corrupt.pdf"
      (fun _ => noMatches) (fun _ => [hitW9])).1 rfl

end RagSpec
